import Mathlib

set_option maxRecDepth 100000

/-
Verification of the agent-orchestration core of the kevinai backend:
the session/conversation store, the task classifier and model router,
the tool dispatcher, and the agent orchestration loop.

Shallow embedding conventions:
* Python dicts keyed by strings become insertion-ordered association lists
  (`List (String × _)`); `dict.get` becomes `List.lookup`.
* Python floats become exact rationals (`ℚ`); the score weights and prices
  in the source are short decimal literals, so the arithmetic of every
  claim is exact and rounding artifacts of binary floats are out of scope.
* External boundaries (the regex engine `re`, the LLM provider, the wall
  clock, JSON serialisation, and the individual tool implementations) are
  parameters of the embedding, not re-implementations.
* Code that can raise is modelled with an explicit `PyOutcome` value;
  a `try/except` becomes a `match` on that value.
* Fields of the source data classes that no claim touches (ids generated
  from timestamps, `created_at`/`updated_at`, `metadata`) are omitted.
-/

/-- Roles a chat message can take (app/models/session.py, `MessageRole`). -/
inductive MessageRole where
  | user
  | assistant
  | system
  | tool
deriving DecidableEq, Repr

/-- String value of a role (the Python str-enum `.value`). -/
def MessageRole.value : MessageRole → String
  | .user => "user"
  | .assistant => "assistant"
  | .system => "system"
  | .tool => "tool"

/-- An LLM-proposed tool call: the dict `{id, function: {name, arguments}}`
flattened to its three fields; `arguments` is the serialized argument text. -/
structure ToolCall where
  id : String
  name : String
  arguments : String
deriving DecidableEq, Repr

/-- Todo status (app/models/session.py, `TodoStatus`). -/
inductive TodoStatus where
  | pending
  | in_progress
  | completed
deriving DecidableEq, Repr

/-- Todo item (app/models/session.py, `Todo`); id and timestamps omitted. -/
structure Todo where
  content : String
  status : TodoStatus
deriving DecidableEq, Repr

/-- Chat message (app/models/session.py, `Message`); id, timestamp and
metadata omitted. -/
structure Message where
  role : MessageRole
  content : String
  tool_calls : Option (List ToolCall) := none
  tool_call_id : Option String := none
deriving DecidableEq, Repr

/-- Session (app/models/session.py, `Session`); workspace path, timestamps
and metadata omitted. -/
structure Session where
  id : String
  name : String
  messages : List Message
  todos : List Todo
deriving DecidableEq, Repr

/-- The `SessionService` state: its `sessions` dict, as an insertion-ordered
association list. -/
structure SessionService where
  sessions : List (String × Session)
deriving DecidableEq, Repr

/-- Write a key into a string-keyed dict: overwrite in place if present,
append at the end otherwise (Python dict assignment; keys are unique by
construction, so overwriting the first occurrence is overwriting the only
one). -/
def dictSet {α : Type} : List (String × α) → String → α → List (String × α)
  | [], k, v => [(k, v)]
  | p :: d, k, v => if p.1 == k then (k, v) :: d else p :: dictSet d k v

/-- `SessionService.get_session`: dict lookup, `none` for a missing id. -/
def SessionService.get_session (svc : SessionService) (session_id : String) :
    Option Session :=
  svc.sessions.lookup session_id

/-- `SessionService.add_message`: append a message to the session's log;
a missing session leaves the state unchanged (the source returns `None`
without mutating anything). -/
def SessionService.add_message (svc : SessionService) (session_id : String)
    (role : MessageRole) (content : String)
    (tool_calls : Option (List ToolCall) := none)
    (tool_call_id : Option String := none) : SessionService :=
  match svc.get_session session_id with
  | none => svc
  | some s =>
      let m : Message :=
        { role := role, content := content, tool_calls := tool_calls,
          tool_call_id := tool_call_id }
      ⟨dictSet svc.sessions session_id { s with messages := s.messages ++ [m] }⟩

/-- `SessionService.get_messages`: all messages, `[]` for a missing session. -/
def SessionService.get_messages (svc : SessionService) (session_id : String) :
    List Message :=
  match svc.get_session session_id with
  | none => []
  | some s => s.messages

/-- `SessionService.update_todos`: wholesale replacement of the todo list;
a missing session leaves the state unchanged. -/
def SessionService.update_todos (svc : SessionService) (session_id : String)
    (todos : List Todo) : SessionService :=
  match svc.get_session session_id with
  | none => svc
  | some s => ⟨dictSet svc.sessions session_id { s with todos := todos }⟩

/-- One entry of the history view handed to the LLM: the dict
`{role, content, tool_calls?, tool_call_id?}`; the two optional keys are
present only when the message field is truthy (a non-empty list, a
non-empty string). -/
structure HistEntry where
  role : String
  content : String
  tool_calls : Option (List ToolCall) := none
  tool_call_id : Option String := none
deriving DecidableEq, Repr

/-- Convert a stored message to a history-view entry, with Python
truthiness on the optional fields (`if msg.tool_calls: ...`). -/
def Message.toEntry (m : Message) : HistEntry :=
  { role := m.role.value
    content := m.content
    tool_calls :=
      match m.tool_calls with
      | some l => if l.isEmpty then none else some l
      | none => none
    tool_call_id :=
      match m.tool_call_id with
      | some s => if s = "" then none else some s
      | none => none }

/-- `SessionService.get_conversation_history`: the LLM-format projection of
the session's messages; when `limit` is a truthy int (Python `if limit:`,
so `0` means no truncation; negative limits do not arise in the claims and
are modelled away by `Nat`), only the last `limit` messages are kept —
the slice `messages[-limit:]`. -/
def SessionService.get_conversation_history (svc : SessionService)
    (session_id : String) (limit : Option Nat := none) : List HistEntry :=
  let messages := svc.get_messages session_id
  let messages :=
    match limit with
    | some n => if n = 0 then messages else messages.drop (messages.length - n)
    | none => messages
  messages.map Message.toEntry

/-- Does this history entry propose (as an assistant message) a tool call
with the given id? -/
def HistEntry.proposes (e : HistEntry) (call_id : String) : Bool :=
  e.role == "assistant" &&
    (e.tool_calls.getD []).any (fun tc => tc.id == call_id)

/-- Helper for `pairsIntact`: `prior` are the entries already seen, in
order, before the entries still to check. -/
def pairsIntactAux : List HistEntry → List HistEntry → Bool
  | _, [] => true
  | prior, e :: rest =>
      (if e.role == "tool" then
        match e.tool_call_id with
        | some cid => prior.any (fun p => p.proposes cid)
        | none => true
      else true) && pairsIntactAux (prior ++ [e]) rest

/-- The tool-call/tool-result pairing property of a history view: every
`tool` entry is preceded, within the view, by an `assistant` entry that
proposed its `tool_call_id`. -/
def pairsIntact (view : List HistEntry) : Bool :=
  pairsIntactAux [] view

/-- A three-message session — user, assistant proposing tool call
`call_1`, tool result for `call_1` — used to exercise history truncation. -/
def sessionC1 : Session :=
  { id := "s"
    name := "Session 1"
    messages :=
      [ { role := .user, content := "hi" }
      , { role := .assistant, content := ""
          tool_calls := some [⟨"call_1", "bash", ""⟩] }
      , { role := .tool, content := "done", tool_call_id := some "call_1" } ]
    todos := [] }

/-- A session service holding just `sessionC1`. -/
def svcC1 : SessionService := ⟨[("s", sessionC1)]⟩

/-- C1: the untruncated view of `sessionC1` is well paired, but the view
with `limit = 1` is exactly the orphaned `tool` entry: `messages[-limit:]`
slices straight through the tool-call/tool-result pair, so truncation does
NOT keep pairs intact and does not omit the unpaired call — the code
contradicts the history-view contract of the specification. -/
theorem get_conversation_history_splits_pair :
    pairsIntact (svcC1.get_conversation_history "s" (some 3)) = true ∧
    svcC1.get_conversation_history "s" (some 1)
      = [{ role := "tool", content := "done", tool_call_id := some "call_1" }] ∧
    pairsIntact (svcC1.get_conversation_history "s" (some 1)) = false := by
  refine ⟨by decide, by decide, by decide⟩

/-- Task categories (app/services/model_router.py, `TaskCategory`), in
declaration order — the order of the Python enum determines both the
iteration order of the `scores` dict and the tie-break of `max`. -/
inductive TaskCategory where
  | simple_query
  | file_operation
  | code_generation
  | code_analysis
  | debugging
  | architecture
  | data_analysis
  | tool_execution
  | conversation
  | planning
deriving DecidableEq, Repr

/-- Model tiers (app/services/model_router.py, `ModelTier`). -/
inductive ModelTier where
  | fast
  | standard
  | premium
deriving DecidableEq, Repr

/-- Truthiness of the four context keys `classify_task` reads
(`context.get("has_code_context")` and friends); an absent key and a falsy
value are the same to the source, so a `Bool` per key is exact. An empty
context dict behaves like `none` (all bonuses are individually gated), so
`Option Context` with all-false defaults loses nothing. -/
structure Context where
  has_code_context : Bool := false
  has_error : Bool := false
  is_followup : Bool := false
  tool_calls : Bool := false
deriving DecidableEq, Repr

/-- Number of regex trigger patterns per category in
`ModelRouter.task_patterns`; categories absent from the dict have none. -/
def numPatterns : TaskCategory → Nat
  | .simple_query => 4
  | .file_operation => 3
  | .code_generation => 3
  | .code_analysis => 3
  | .debugging => 4
  | .architecture => 4
  | .data_analysis => 4
  | .planning => 3
  | .tool_execution => 0
  | .conversation => 0

/-- Abstraction of one user message as `classify_task` observes it: the
verdict of `re.search` for the i-th trigger pattern of each category on the
lower-cased message (the regex engine is an external library; its verdicts
are inputs of the embedding, not re-implemented), and the whitespace word
count `len(message.split())`. -/
structure MessageFeatures where
  patternHit : TaskCategory → Nat → Bool
  wordCount : Nat

/-- Score contribution of the regex patterns: one point per matching
pattern of the category. -/
def patternScore (msg : MessageFeatures) (c : TaskCategory) : ℚ :=
  ((List.range (numPatterns c)).countP (fun i => msg.patternHit c i) : ℕ)

/-- The complete score of one category: pattern matches, context bonuses,
and message-length bonuses, exactly as accumulated in `classify_task`. -/
def rawScores (msg : MessageFeatures) (ctx : Option Context)
    (c : TaskCategory) : ℚ :=
  patternScore msg c
  + (match ctx with
    | none => 0
    | some ctx =>
        (if ctx.has_code_context ∧ c = .code_analysis then 0.5 else 0)
        + (if ctx.has_code_context ∧ c = .code_generation then 0.3 else 0)
        + (if ctx.has_error ∧ c = .debugging then 1 else 0)
        + (if ctx.is_followup ∧ c = .conversation then 0.5 else 0)
        + (if ctx.tool_calls ∧ c = .tool_execution then 0.5 else 0))
  + (if 100 < msg.wordCount ∧ (c = .architecture ∨ c = .planning) then 0.3 else 0)
  + (if msg.wordCount < 10 ∧ c = .simple_query then 0.5 else 0)

/-- The categories in the `scores` dict's (= the enum's) order. -/
def categoryOrder : List TaskCategory :=
  [.simple_query, .file_operation, .code_generation, .code_analysis,
   .debugging, .architecture, .data_analysis, .tool_execution,
   .conversation, .planning]

/-- `sum(scores.values())`. -/
def sumScores (s : TaskCategory → ℚ) : ℚ :=
  (categoryOrder.map s).sum

/-- `max(scores, key=lambda k: scores[k])`: the first category, in dict
order, attaining the maximal score. -/
def bestCategory (s : TaskCategory → ℚ) : TaskCategory :=
  categoryOrder.foldl (fun best c => if s c > s best then c else best)
    .simple_query

/-- Python `max(a, b)`: the first argument when the two are equal. -/
def pyMax (a b : ℚ) : ℚ := if b ≤ a then a else b

/-- On a linear order the first-argument-biased `max` is the `max`. -/
theorem pyMax_eq_max (a b : ℚ) : pyMax a b = max a b := by
  rw [max_comm, max_def]
  unfold pyMax
  rfl

/-- `ModelRouter.classify_task`: score every category, pick the first
maximal one, normalise by `max(sum, 1.0)`, and fall back to `conversation`
when the confidence is below `0.3`. -/
def classify_task (msg : MessageFeatures) (ctx : Option Context := none) :
    TaskCategory × ℚ :=
  let s := rawScores msg ctx
  let best := bestCategory s
  let confidence := s best / pyMax (sumScores s) 1
  (if confidence < 0.3 then .conversation else best, confidence)

/-- The confidence value before the low-confidence category override (the
override reassigns only `best_category`, never `confidence`). -/
def rawConfidence (msg : MessageFeatures) (ctx : Option Context) : ℚ :=
  let s := rawScores msg ctx
  s (bestCategory s) / pyMax (sumScores s) 1

/-- A message matching no trigger pattern, with no context and a word
count of 10 (so neither length bonus fires): every category scores zero. -/
def msgZero : MessageFeatures :=
  { patternHit := fun _ _ => false, wordCount := 10 }

/-- Every category score is a sum of non-negative contributions. -/
theorem rawScores_nonneg (msg : MessageFeatures) (ctx : Option Context)
    (c : TaskCategory) : 0 ≤ rawScores msg ctx c := by
  unfold rawScores patternScore
  cases ctx <;> split_ifs <;> positivity

/-- Any single category's score is at most the sum of all scores. -/
theorem score_le_sumScores (s : TaskCategory → ℚ) (h : ∀ c, 0 ≤ s c)
    (c : TaskCategory) : s c ≤ sumScores s := by
  have hc : c ∈ categoryOrder := by cases c <;> decide
  exact List.single_le_sum
    (fun x hx => by
      obtain ⟨c', -, rfl⟩ := List.mem_map.mp hx
      exact h c')
    _ (List.mem_map_of_mem s hc)

/-- C4 counterexample: on a message whose category scores are all zero,
`classify_task` returns confidence `0.0`, not the `1.0` the claim states
for a zero score sum — the source divides by `max(sum, 1.0)`. -/
theorem classify_zero_sum_confidence_is_zero :
    sumScores (rawScores msgZero none) = 0 ∧
    (classify_task msgZero none).2 = 0 ∧
    ¬(classify_task msgZero none).2 = 1 :=
  ⟨by with_unfolding_all decide, by with_unfolding_all decide,
   by with_unfolding_all decide⟩

/-- C4 amended: the confidence is the winning category's score divided by
`max(sum of all scores, 1.0)`: it equals winner/sum whenever the sum is at
least 1, it equals the winner's raw score when the sum is below 1, and in
particular it is 0 (not 1.0) when the sum is zero. -/
theorem classify_confidence_formula (msg : MessageFeatures)
    (ctx : Option Context) :
    (sumScores (rawScores msg ctx) = 0 → (classify_task msg ctx).2 = 0) ∧
    (1 ≤ sumScores (rawScores msg ctx) →
      (classify_task msg ctx).2
        = rawScores msg ctx (bestCategory (rawScores msg ctx))
            / sumScores (rawScores msg ctx)) ∧
    (sumScores (rawScores msg ctx) < 1 →
      (classify_task msg ctx).2
        = rawScores msg ctx (bestCategory (rawScores msg ctx))) := by
  have h2 : (classify_task msg ctx).2
      = rawScores msg ctx (bestCategory (rawScores msg ctx))
          / pyMax (sumScores (rawScores msg ctx)) 1 := rfl
  refine ⟨?_, ?_, ?_⟩
  · intro h0
    have hle : rawScores msg ctx (bestCategory (rawScores msg ctx)) ≤ 0 := by
      rw [← h0]
      exact score_le_sumScores _ (rawScores_nonneg msg ctx) _
    have hb := le_antisymm hle (rawScores_nonneg msg ctx _)
    rw [h2, hb, h0]
    norm_num [pyMax]
  · intro h1
    rw [h2, pyMax_eq_max, max_eq_left h1]
  · intro hlt
    rw [h2, pyMax_eq_max, max_eq_right (le_of_lt hlt), div_one]

/-- Witness: the zero-sum branch of `classify_confidence_formula` fires on
the concrete all-zero message. -/
theorem classify_confidence_formula_witness :
    sumScores (rawScores msgZero none) = 0 ∧
    (classify_task msgZero none).2 = 0 :=
  ⟨by with_unfolding_all decide,
   (classify_confidence_formula msgZero none).1 (by with_unfolding_all decide)⟩

/-- C5: whenever the returned confidence is below the fixed 0.3 threshold,
the returned category is `conversation`, whatever the raw winner was. -/
theorem classify_low_confidence_fallback (msg : MessageFeatures)
    (ctx : Option Context) (h : (classify_task msg ctx).2 < 0.3) :
    (classify_task msg ctx).1 = .conversation := by
  have h1 : (classify_task msg ctx).1
      = if rawConfidence msg ctx < 0.3 then TaskCategory.conversation
        else bestCategory (rawScores msg ctx) := rfl
  have h2 : (classify_task msg ctx).2 = rawConfidence msg ctx := rfl
  rw [h2] at h
  rw [h1, if_pos h]

/-- Witness: the all-zero message has confidence `0 < 0.3` and is
classified `conversation`. -/
theorem classify_low_confidence_fallback_witness :
    (classify_task msgZero none).2 < 0.3 ∧
    (classify_task msgZero none).1 = .conversation :=
  ⟨by with_unfolding_all decide,
   classify_low_confidence_fallback msgZero none (by with_unfolding_all decide)⟩

/-- C10: the low-confidence override rewrites only the category — the
returned confidence is always the raw normalised winner score, so the
returned pair can carry a confidence below 0.3; concretely, the all-zero
message yields exactly `(conversation, 0.0)`. -/
theorem classify_override_preserves_confidence :
    (∀ (msg : MessageFeatures) (ctx : Option Context),
      (classify_task msg ctx).2 = rawConfidence msg ctx) ∧
    classify_task msgZero none = (.conversation, 0) :=
  ⟨fun _ _ => rfl, by with_unfolding_all decide⟩

/-- The static per-model price table (app/config.py, `model_costs`):
prices per 1000 tokens, `(input, output)`. -/
def defaultModelCosts : List (String × ℚ × ℚ) :=
  [ ("gpt-3.5-turbo", (0.0005, 0.0015))
  , ("gpt-4-turbo-preview", (0.01, 0.03))
  , ("gpt-4", (0.03, 0.06))
  , ("claude-3-haiku-20240307", (0.00025, 0.00125))
  , ("claude-3-sonnet-20240229", (0.003, 0.015))
  , ("claude-3-opus-20240229", (0.015, 0.075)) ]

/-- Application settings (app/config.py, `Settings`); only the fields the
routing and cost code reads are kept. -/
structure Settings where
  openai_api_key : Option String := none
  anthropic_api_key : Option String := none
  fast_model_openai : String := "gpt-3.5-turbo"
  fast_model_anthropic : String := "claude-3-haiku-20240307"
  fast_model_max_tokens : Nat := 2048
  standard_model_openai : String := "gpt-4-turbo-preview"
  standard_model_anthropic : String := "claude-3-sonnet-20240229"
  standard_model_max_tokens : Nat := 4096
  premium_model_openai : String := "gpt-4"
  premium_model_anthropic : String := "claude-3-opus-20240229"
  premium_model_max_tokens : Nat := 8192
  model_costs : List (String × ℚ × ℚ) := defaultModelCosts

/-- The module-level `settings = Settings()` of app/config.py, with its
declared defaults (no environment overrides). -/
def settings : Settings := {}

/-- Python truthiness of an optional string: `None` and `""` are falsy. -/
def strTruthy : Option String → Bool
  | none => false
  | some s => !(s == "")

/-- The fixed `category_to_tier` table of `ModelRouter.__init__`; the
source reads it with `.get(category, ModelTier.STANDARD)`, but the table
is total, so the default is unreachable. -/
def category_to_tier : TaskCategory → ModelTier
  | .simple_query => .fast
  | .file_operation => .fast
  | .tool_execution => .fast
  | .conversation => .fast
  | .code_analysis => .standard
  | .code_generation => .standard
  | .data_analysis => .standard
  | .debugging => .premium
  | .architecture => .premium
  | .planning => .standard

/-- `ModelRouter._get_model_for_tier`: any provider other than
`"openai"` falls through to the anthropic model names. -/
def get_model_for_tier (tier : ModelTier) (provider : String) : String :=
  if provider = "openai" then
    match tier with
    | .fast => settings.fast_model_openai
    | .standard => settings.standard_model_openai
    | .premium => settings.premium_model_openai
  else
    match tier with
    | .fast => settings.fast_model_anthropic
    | .standard => settings.standard_model_anthropic
    | .premium => settings.premium_model_anthropic

/-- `ModelRouter.select_model`: classify, derive the tier (the forced tier
wins; otherwise the table tier, escalated fast→standard when the
confidence is below 0.5), resolve the provider from the preference or the
configured credentials, and look up the provider's model for the tier. -/
def select_model (msg : MessageFeatures) (ctx : Option Context := none)
    (force_tier : Option ModelTier := none)
    (prefer_provider : Option String := none) :
    String × ModelTier × TaskCategory :=
  let c := classify_task msg ctx
  let category := c.1
  let confidence := c.2
  let tier :=
    match force_tier with
    | some t => t
    | none =>
        let t := category_to_tier category
        if confidence < 0.5 ∧ t = .fast then .standard else t
  let provider :=
    if strTruthy prefer_provider then prefer_provider.getD ""
    else if strTruthy settings.openai_api_key then "openai"
    else if strTruthy settings.anthropic_api_key then "anthropic"
    else "openai"
  (get_model_for_tier tier provider, tier, category)

/-- `ModelRouter.get_max_tokens_for_tier`. -/
def get_max_tokens_for_tier (tier : ModelTier) : Nat :=
  match tier with
  | .fast => settings.fast_model_max_tokens
  | .standard => settings.standard_model_max_tokens
  | .premium => settings.premium_model_max_tokens

/-- C6: without a forced tier, the returned category is the classified
one, the tier is the table tier with exactly one escalation — fast becomes
standard below confidence 0.5, non-fast table tiers are returned verbatim;
in particular `simple_query` routes to fast at confidence ≥ 0.5 and to
standard below, and `debugging` routes to premium at any confidence. -/
theorem select_model_escalation (msg : MessageFeatures) (ctx : Option Context)
    (pp : Option String) :
    (select_model msg ctx none pp).2.2 = (classify_task msg ctx).1 ∧
    (category_to_tier (classify_task msg ctx).1 = .fast →
      (select_model msg ctx none pp).2.1
        = if (classify_task msg ctx).2 < 0.5 then .standard else .fast) ∧
    (category_to_tier (classify_task msg ctx).1 ≠ .fast →
      (select_model msg ctx none pp).2.1
        = category_to_tier (classify_task msg ctx).1) ∧
    ((classify_task msg ctx).1 = .simple_query →
      (0.5 ≤ (classify_task msg ctx).2 →
        (select_model msg ctx none pp).2.1 = .fast) ∧
      ((classify_task msg ctx).2 < 0.5 →
        (select_model msg ctx none pp).2.1 = .standard)) ∧
    ((classify_task msg ctx).1 = .debugging →
      (select_model msg ctx none pp).2.1 = .premium) := by
  have ht : (select_model msg ctx none pp).2.1
      = if (classify_task msg ctx).2 < 0.5 ∧
            category_to_tier (classify_task msg ctx).1 = .fast
        then .standard else category_to_tier (classify_task msg ctx).1 := rfl
  refine ⟨rfl, ?_, ?_, ?_, ?_⟩
  · intro hf
    rw [ht, hf]
    by_cases hc : (classify_task msg ctx).2 < 0.5 <;> simp [hc]
  · intro hne
    rw [ht, if_neg]
    rintro ⟨-, h⟩
    exact hne h
  · intro hsq
    have hf : category_to_tier (classify_task msg ctx).1 = .fast := by
      rw [hsq]
      decide
    constructor
    · intro hge
      rw [ht, hf, if_neg]
      rintro ⟨h, -⟩
      exact absurd hge (not_le.mpr h)
    · intro hlt
      rw [ht, hf, if_pos ⟨hlt, rfl⟩]
  · intro hdb
    have hp : category_to_tier (classify_task msg ctx).1 = .premium := by
      rw [hdb]
      decide
    rw [ht, hp, if_neg]
    rintro ⟨-, h⟩
    exact ModelTier.noConfusion h

/-- A two-word message whose only regex hit is the first `simple_query`
pattern: it classifies as `simple_query` with confidence 1. -/
def msgSimple : MessageFeatures :=
  { patternHit := fun c i =>
      if c = TaskCategory.simple_query ∧ i = 0 then true else false
    wordCount := 2 }

/-- A message whose only regex hit is the first `debugging` pattern, long
enough to skip the short-message bonus. -/
def msgDebug : MessageFeatures :=
  { patternHit := fun c i =>
      if c = TaskCategory.debugging ∧ i = 0 then true else false
    wordCount := 20 }

/-- A context carrying only an error signal (`{has_error: true}`). -/
def ctxError : Option Context := some { has_error := true }

/-- Witness: `msgSimple` routes to `fast` (confidence 1 ≥ 0.5), and
`msgDebug` with an error context classifies `debugging` and routes to
`premium`. -/
theorem select_model_escalation_witness :
    ((classify_task msgSimple none).1 = .simple_query ∧
      0.5 ≤ (classify_task msgSimple none).2 ∧
      (select_model msgSimple none none none).2.1 = .fast) ∧
    ((classify_task msgDebug ctxError).1 = .debugging ∧
      (select_model msgDebug ctxError none none).2.1 = .premium) := by
  refine ⟨⟨by with_unfolding_all decide, by with_unfolding_all decide, ?_⟩,
          by with_unfolding_all decide, ?_⟩
  · exact ((select_model_escalation msgSimple none none).2.2.2.1
      (by with_unfolding_all decide)).1 (by with_unfolding_all decide)
  · exact (select_model_escalation msgDebug ctxError none).2.2.2.2
      (by with_unfolding_all decide)

/-- Looking up after a dict write sees the new value at the written key
and the old dict elsewhere. -/
theorem lookup_dictSet {α : Type} (d : List (String × α)) (k k' : String)
    (v : α) :
    (dictSet d k v).lookup k' = if k' = k then some v else d.lookup k' := by
  induction d with
  | nil =>
      by_cases h : k' = k
      · simp [dictSet, List.lookup, h]
      · have hb : (k' == k) = false := beq_eq_false_iff_ne.mpr h
        simp [dictSet, List.lookup, hb, h]
  | cons p d ih =>
      by_cases hpk : p.1 = k
      · have hb : (p.1 == k) = true := beq_iff_eq.mpr hpk
        by_cases h : k' = k
        · have hb2 : (k' == k) = true := beq_iff_eq.mpr h
          simp [dictSet, List.lookup, hb, hb2, h]
        · have hb2 : (k' == k) = false := beq_eq_false_iff_ne.mpr h
          have hb3 : (k' == p.1) = false :=
            beq_eq_false_iff_ne.mpr (fun e => h (e.trans hpk))
          simp [dictSet, List.lookup, hb, hb2, hb3, h]
      · have hb : (p.1 == k) = false := beq_eq_false_iff_ne.mpr hpk
        by_cases hp : k' = p.1
        · have hb2 : (k' == p.1) = true := beq_iff_eq.mpr hp
          have h : ¬k' = k := fun e => hpk (hp.symm.trans e)
          have hb3 : (k' == k) = false := beq_eq_false_iff_ne.mpr h
          simp [dictSet, List.lookup, hb, hb2, hb3, h]
        · have hb2 : (k' == p.1) = false := beq_eq_false_iff_ne.mpr hp
          by_cases h : k' = k
          · have hb4 : (k == p.1) = false :=
              beq_eq_false_iff_ne.mpr (fun e => hpk e.symm)
            rw [h] at ih
            simp only [if_pos rfl] at ih
            simp [dictSet, List.lookup, hb, hb2, hb4, h, ih]
          · simp [dictSet, List.lookup, hb, hb2, h, ih]

/-- Token usage for one request (app/services/model_router.py,
`TokenUsage`); the timestamp is omitted. -/
structure TokenUsage where
  input_tokens : Nat := 0
  output_tokens : Nat := 0
  model : String := ""
deriving DecidableEq, Repr

/-- `TokenUsage.calculate_cost`: price the tokens per 1000 from the static
table; a model absent from the table prices at `{input: 0, output: 0}`. -/
def TokenUsage.calculate_cost (u : TokenUsage) : ℚ :=
  let costs := (settings.model_costs.lookup u.model).getD (0, 0)
  (u.input_tokens : ℚ) / 1000 * costs.1 + (u.output_tokens : ℚ) / 1000 * costs.2

/-- Per-session cost accumulator (app/services/model_router.py,
`SessionCostTracker`). -/
structure SessionCostTracker where
  session_id : String
  usage_history : List TokenUsage := []
  total_cost : ℚ := 0
  total_input_tokens : Nat := 0
  total_output_tokens : Nat := 0
deriving DecidableEq, Repr

/-- `SessionCostTracker.add_usage`: append to the history and bump the
three running totals. -/
def SessionCostTracker.add_usage (t : SessionCostTracker) (usage : TokenUsage) :
    SessionCostTracker :=
  { t with
    usage_history := t.usage_history ++ [usage]
    total_input_tokens := t.total_input_tokens + usage.input_tokens
    total_output_tokens := t.total_output_tokens + usage.output_tokens
    total_cost := t.total_cost + usage.calculate_cost }

/-- Python `round(x, 6)` on our exact rationals. (Python rounds binary
floats with ties-to-even; no claim depends on tie behaviour, so the
standard `round` on ℚ stands in.) -/
def pyRound6 (q : ℚ) : ℚ := (round (q * 1000000) : ℤ) / 1000000

/-- The dict returned by `SessionCostTracker.get_summary`. -/
structure CostSummary where
  session_id : String
  total_cost : ℚ
  total_input_tokens : Nat
  total_output_tokens : Nat
  total_requests : Nat
  cost_by_model : List (String × ℚ)
deriving DecidableEq, Repr

/-- `SessionCostTracker._cost_by_model`: per-model cost breakdown,
rounded to 6 places. -/
def SessionCostTracker.cost_by_model (t : SessionCostTracker) :
    List (String × ℚ) :=
  (t.usage_history.foldl
    (fun costs u =>
      let costs :=
        if (costs.lookup u.model).isSome then costs
        else dictSet costs u.model 0
      dictSet costs u.model (((costs.lookup u.model).getD 0) + u.calculate_cost))
    []).map (fun p => (p.1, pyRound6 p.2))

/-- `SessionCostTracker.get_summary`. -/
def SessionCostTracker.get_summary (t : SessionCostTracker) : CostSummary :=
  { session_id := t.session_id
    total_cost := pyRound6 t.total_cost
    total_input_tokens := t.total_input_tokens
    total_output_tokens := t.total_output_tokens
    total_requests := t.usage_history.length
    cost_by_model := t.cost_by_model }

/-- The `ModelRouter` state: its `session_trackers` dict (the pattern and
tier tables are constants and live as standalone definitions above). -/
structure ModelRouter where
  session_trackers : List (String × SessionCostTracker) := []
deriving DecidableEq, Repr

/-- `ModelRouter.track_usage`: lazily create the session's tracker, then
record the usage. -/
def ModelRouter.track_usage (rt : ModelRouter) (session_id model : String)
    (input_tokens output_tokens : Nat) : ModelRouter × TokenUsage :=
  let usage : TokenUsage :=
    { input_tokens := input_tokens, output_tokens := output_tokens,
      model := model }
  match rt.session_trackers.lookup session_id with
  | some t =>
      (⟨dictSet rt.session_trackers session_id (t.add_usage usage)⟩, usage)
  | none =>
      (⟨dictSet rt.session_trackers session_id
          (SessionCostTracker.add_usage { session_id := session_id } usage)⟩,
       usage)

/-- C8: for every tracked usage record whose model the static price
table lists at `(price_in, price_out)`, the cost is
`(input_tokens/1000)·price_in + (output_tokens/1000)·price_out`; a model
absent from the table prices at zero without failing; and the concrete
example `input=1000, output=500` on the row priced
`{input: 0.0005, output: 0.0015}` costs exactly `0.00125`. -/
theorem calculate_cost_formula :
    (∀ (u : TokenUsage) (price_in price_out : ℚ),
      settings.model_costs.lookup u.model = some (price_in, price_out) →
      u.calculate_cost
        = (u.input_tokens : ℚ) / 1000 * price_in
          + (u.output_tokens : ℚ) / 1000 * price_out) ∧
    (∀ u : TokenUsage, settings.model_costs.lookup u.model = none →
      u.calculate_cost = 0) ∧
    TokenUsage.calculate_cost ⟨1000, 500, "gpt-3.5-turbo"⟩ = 0.00125 := by
  refine ⟨?_, ?_, ?_⟩
  · intro u price_in price_out h
    simp [TokenUsage.calculate_cost, h]
  · intro u h
    simp [TokenUsage.calculate_cost, h]
  · with_unfolding_all decide

/-- Witness: the formula clause at the `"gpt-3.5-turbo"` row of the
table, and the zero-cost clause at a model absent from it. -/
theorem calculate_cost_formula_witness :
    (settings.model_costs.lookup "gpt-3.5-turbo" = some (0.0005, 0.0015) ∧
      TokenUsage.calculate_cost ⟨1000, 500, "gpt-3.5-turbo"⟩
        = ((1000 : Nat) : ℚ) / 1000 * 0.0005
          + ((500 : Nat) : ℚ) / 1000 * 0.0015) ∧
    (settings.model_costs.lookup "no-such-model" = none ∧
      TokenUsage.calculate_cost ⟨1000, 500, "no-such-model"⟩ = 0) :=
  ⟨⟨by with_unfolding_all decide,
    calculate_cost_formula.1 ⟨1000, 500, "gpt-3.5-turbo"⟩ 0.0005 0.0015
      (by with_unfolding_all decide)⟩,
   ⟨by with_unfolding_all decide,
    calculate_cost_formula.2.1 ⟨1000, 500, "no-such-model"⟩
      (by with_unfolding_all decide)⟩⟩

/-- The bookkeeping invariant of one tracker: the three running totals
agree with the recorded history, and the summary's request count is the
history length. -/
def trackerInvariant (t : SessionCostTracker) : Prop :=
  t.total_input_tokens = (t.usage_history.map TokenUsage.input_tokens).sum ∧
  t.total_output_tokens = (t.usage_history.map TokenUsage.output_tokens).sum ∧
  t.total_cost = (t.usage_history.map TokenUsage.calculate_cost).sum ∧
  t.get_summary.total_requests = t.usage_history.length

/-- A fresh tracker satisfies the invariant. -/
theorem trackerInvariant_empty (sid : String) :
    trackerInvariant { session_id := sid } :=
  ⟨rfl, rfl, rfl, rfl⟩

/-- `add_usage` preserves the invariant. -/
theorem trackerInvariant_add (t : SessionCostTracker) (u : TokenUsage)
    (h : trackerInvariant t) : trackerInvariant (t.add_usage u) := by
  obtain ⟨h1, h2, h3, h4⟩ := h
  refine ⟨?_, ?_, ?_, ?_⟩ <;>
    simp [SessionCostTracker.add_usage, SessionCostTracker.get_summary,
      h1, h2, h3]

/-- Every tracker reachable in a router state satisfies the invariant. -/
def routerInv (rt : ModelRouter) : Prop :=
  ∀ sid t, rt.session_trackers.lookup sid = some t → trackerInvariant t

/-- `track_usage` preserves the router-wide invariant. -/
theorem routerInv_track (rt : ModelRouter) (sid model : String) (i o : Nat)
    (h : routerInv rt) : routerInv (rt.track_usage sid model i o).1 := by
  intro sid' t' hl
  unfold ModelRouter.track_usage at hl
  cases hc : rt.session_trackers.lookup sid with
  | some t =>
      rw [hc] at hl
      simp only [lookup_dictSet] at hl
      by_cases hs : sid' = sid
      · rw [if_pos hs] at hl
        cases hl
        exact trackerInvariant_add _ _ (h sid t hc)
      · rw [if_neg hs] at hl
        exact h sid' t' hl
  | none =>
      rw [hc] at hl
      simp only [lookup_dictSet] at hl
      by_cases hs : sid' = sid
      · rw [if_pos hs] at hl
        cases hl
        exact trackerInvariant_add _ _ (trackerInvariant_empty sid)
      · rw [if_neg hs] at hl
        exact h sid' t' hl

/-- Run a sequence of `track_usage` calls
`(session_id, model, input_tokens, output_tokens)` from a fresh router. -/
def runTrackCalls (calls : List (String × String × Nat × Nat)) : ModelRouter :=
  calls.foldl
    (fun rt c => (rt.track_usage c.1 c.2.1 c.2.2.1 c.2.2.2).1) {}

/-- The router-wide invariant holds after any sequence of calls. -/
theorem routerInv_runTrackCalls (calls : List (String × String × Nat × Nat)) :
    routerInv (runTrackCalls calls) := by
  suffices h : ∀ rt, routerInv rt →
      routerInv (calls.foldl
        (fun rt c => (rt.track_usage c.1 c.2.1 c.2.2.1 c.2.2.2).1) rt) by
    refine h {} ?_
    intro sid t hl
    simp [List.lookup] at hl
  induction calls with
  | nil => intro rt h; exact h
  | cons c rest ih =>
      intro rt h
      exact ih _ (routerInv_track rt c.1 c.2.1 c.2.2.1 c.2.2.2 h)

/-- C9: in every tracker reachable through any sequence of `track_usage`
calls, `total_input_tokens`, `total_output_tokens` and `total_cost` are
the sums of the corresponding fields over `usage_history`, and the
summary's `total_requests` is the history length. -/
theorem track_usage_totals_invariant
    (calls : List (String × String × Nat × Nat)) (sid : String)
    (t : SessionCostTracker)
    (h : (runTrackCalls calls).session_trackers.lookup sid = some t) :
    t.total_input_tokens = (t.usage_history.map TokenUsage.input_tokens).sum ∧
    t.total_output_tokens
      = (t.usage_history.map TokenUsage.output_tokens).sum ∧
    t.total_cost = (t.usage_history.map TokenUsage.calculate_cost).sum ∧
    t.get_summary.total_requests = t.usage_history.length :=
  routerInv_runTrackCalls calls sid t h

/-- The tracker produced by one `track_usage("s", "gpt-4", 10, 20)` call:
cost `10/1000·0.03 + 20/1000·0.06 = 0.0015`. -/
def trackerW : SessionCostTracker :=
  { session_id := "s"
    usage_history := [⟨10, 20, "gpt-4"⟩]
    total_cost := 0.0015
    total_input_tokens := 10
    total_output_tokens := 20 }

/-- Witness: the invariant, instantiated at the concrete single-call run. -/
theorem track_usage_totals_invariant_witness :
    (runTrackCalls [("s", "gpt-4", 10, 20)]).session_trackers.lookup "s"
      = some trackerW ∧
    (trackerW.total_input_tokens
        = (trackerW.usage_history.map TokenUsage.input_tokens).sum ∧
      trackerW.total_output_tokens
        = (trackerW.usage_history.map TokenUsage.output_tokens).sum ∧
      trackerW.total_cost
        = (trackerW.usage_history.map TokenUsage.calculate_cost).sum ∧
      trackerW.get_summary.total_requests
        = trackerW.usage_history.length) :=
  ⟨by with_unfolding_all decide,
   track_usage_totals_invariant [("s", "gpt-4", 10, 20)] "s" trackerW
     (by with_unfolding_all decide)⟩

/-- A JSON-like value, for tool argument maps and tool result dicts. -/
inductive JVal where
  | null
  | bool (b : Bool)
  | num (q : ℚ)
  | str (s : String)
  | list (items : List JVal)
  | dict (entries : List (String × JVal))

/-- A Python dict with string keys, as passed to and returned by tools. -/
abbrev RDict := List (String × JVal)

/-- A tool argument map. -/
abbrev Args := List (String × JVal)

/-- Outcome of running a piece of Python code: a returned value or a
raised exception (the exception text is a modelling approximation; no
claim depends on exact exception messages). -/
inductive PyOutcome (α : Type) where
  | ret (a : α)
  | exn (msg : String)

/-- Key membership in a dict. -/
def hasKey (d : List (String × JVal)) (k : String) : Bool :=
  d.any (fun p => p.1 == k)

/-- Python `d.get(k, default)`. -/
def dictGet (d : List (String × JVal)) (k : String) (default : JVal) : JVal :=
  (d.lookup k).getD default

/-- Python `d.pop(k, default)`: the value and the dict without the key. -/
def dictPop (d : Args) (k : String) (default : JVal) : JVal × Args :=
  match d.lookup k with
  | some v => (v, d.filter (fun p => !(p.1 == k)))
  | none => (default, d)

/-- Python truthiness of a JSON-like value. -/
def jTruthy : JVal → Bool
  | .null => false
  | .bool b => b
  | .num q => !(decide (q = 0))
  | .str s => !(s == "")
  | .list items => !items.isEmpty
  | .dict entries => !entries.isEmpty

/-- `BaseTool.run` (app/tools/base.py): call the tool's `execute`, time
it, and wrap the outcome — success and handler exception alike carry
`execution_time_ms`. The wall clock is external; `elapsed_ms` is the
measured duration for this invocation. -/
def BaseTool.run (elapsed_ms : ℚ) (execute : Args → PyOutcome RDict)
    (args : Args) : RDict :=
  match execute args with
  | .ret result =>
      [ ("success", .bool true)
      , ("result", .dict result)
      , ("execution_time_ms", .num elapsed_ms) ]
  | .exn e =>
      [ ("success", .bool false)
      , ("error", .str e)
      , ("execution_time_ms", .num elapsed_ms) ]

/-- Calling `tool.run(fixed_kwargs..., **args)`: Python raises `TypeError`
before entering `run` when `args` repeats a fixed keyword; otherwise the
fixed kwargs are merged in front of `args`. -/
def runFixed (elapsed_ms : ℚ) (execute : Args → PyOutcome RDict)
    (fixed : Args) (args : Args) : PyOutcome RDict :=
  if fixed.any (fun p => hasKey args p.1) then
    .exn "TypeError: got multiple values for a keyword argument"
  else
    .ret (BaseTool.run elapsed_ms execute (fixed ++ args))

/-- Calling `tool.execute(fixed_kwargs..., **args)` directly (no timing
wrapper, exceptions propagate to the dispatcher): same duplicate-keyword
rule. -/
def callFixed (execute : Args → PyOutcome RDict) (fixed : Args)
    (args : Args) : PyOutcome RDict :=
  if fixed.any (fun p => hasKey args p.1) then
    .exn "TypeError: got multiple values for a keyword argument"
  else
    execute (fixed ++ args)

/-- The sixteen tool objects the `AgentService` constructor creates, each
abstracted to its `execute` behaviour (tool implementations are external
collaborators; `knowledge` has no dispatch branch but is constructed by
the source, so it is kept). -/
structure ToolSet where
  bash : Args → PyOutcome RDict
  file_ops : Args → PyOutcome RDict
  search : Args → PyOutcome RDict
  browser : Args → PyOutcome RDict
  git : Args → PyOutcome RDict
  web : Args → PyOutcome RDict
  task : Args → PyOutcome RDict
  data_analyst : Args → PyOutcome RDict
  deploy : Args → PyOutcome RDict
  lsp : Args → PyOutcome RDict
  mcp : Args → PyOutcome RDict
  thinking : Args → PyOutcome RDict
  github_api : Args → PyOutcome RDict
  screen_recording : Args → PyOutcome RDict
  code_validator : Args → PyOutcome RDict
  knowledge : Args → PyOutcome RDict

/-- `TodoStatus(s)`: the str-enum constructor raises `ValueError` on an
unknown status string. -/
def parseTodoStatus : String → PyOutcome TodoStatus
  | "pending" => .ret .pending
  | "in_progress" => .ret .in_progress
  | "completed" => .ret .completed
  | _ => .exn "ValueError: invalid TodoStatus"

/-- One item of the `update_todos` comprehension:
`Todo(content=t["content"], status=TodoStatus(t.get("status", "pending")))`. -/
def parseTodoItem : JVal → PyOutcome Todo
  | .dict d =>
      match d.lookup "content" with
      | some (.str c) =>
          (match dictGet d "status" (.str "pending") with
            | .str s =>
                match parseTodoStatus s with
                | .ret st => .ret { content := c, status := st }
                | .exn e => .exn e
            | _ => .exn "ValueError: invalid TodoStatus")
      | some _ => .exn "ValidationError: content must be a string"
      | none => .exn "KeyError: content"
  | _ => .exn "TypeError: todo item is not a dict"

/-- The whole comprehension of `SessionService.update_todos`: the first
failing item raises and nothing is assigned. -/
def parseTodos : JVal → PyOutcome (List Todo)
  | .list items =>
      items.foldr
        (fun item acc =>
          match parseTodoItem item with
          | .exn e => .exn e
          | .ret t =>
              match acc with
              | .ret ts => .ret (t :: ts)
              | .exn e => .exn e)
        (.ret [])
  | _ => .exn "TypeError: todos is not a list"

/-- Every tool name with a dispatch branch in `AgentService._execute_tool`
(the second `git_create_pr` branch of the source is shadowed by the first
and listed once). -/
def knownToolNames : List String :=
  [ "bash", "read_file", "write_file", "edit_file", "glob", "grep"
  , "browser_navigate", "browser_click", "browser_type", "browser_screenshot"
  , "git_status", "git_commit", "git_create_branch", "git_push"
  , "git_create_pr", "web_search", "web_get_contents", "todo_write"
  , "message_user", "think", "data_analyst", "deploy", "lsp_tool"
  , "goto_definition", "find_references", "hover_symbol", "get_diagnostics"
  , "mcp_tool", "mcp_list_servers", "mcp_list_tools", "mcp_call_tool"
  , "github_api", "git_view_pr", "git_pr_checks", "git_comment_on_pr"
  , "git_ci_job_logs", "recording_start", "recording_stop", "screenshot"
  , "code_validator", "validate_code", "lint_code", "type_check"
  , "run_tests", "build_project", "detect_project", "syntax_check" ]

/-- The body of `AgentService._execute_tool` inside its `try`: the string
if/elif chain. Branches going through `.run(...)` get the timing wrapper;
branches calling `.execute(...)` directly do not; the final `else`
produces the unknown-tool error dict. The returned session state carries
the `todo_write` branch's `update_todos` side effect. -/
def executeToolBody (ts : ToolSet) (elapsed : ℚ) (svc : SessionService)
    (session_id : String) (tool_name : String) (args : Args) :
    SessionService × PyOutcome RDict :=
  if tool_name = "bash" then
    (svc, .ret (BaseTool.run elapsed ts.bash args))
  else if tool_name = "read_file" then
    (svc, runFixed elapsed ts.file_ops [("operation", .str "read")] args)
  else if tool_name = "write_file" then
    (svc, runFixed elapsed ts.file_ops [("operation", .str "write")] args)
  else if tool_name = "edit_file" then
    (svc, runFixed elapsed ts.file_ops [("operation", .str "edit")] args)
  else if tool_name = "glob" then
    (svc, runFixed elapsed ts.search [("operation", .str "glob")] args)
  else if tool_name = "grep" then
    (svc, runFixed elapsed ts.search [("operation", .str "grep")] args)
  else if tool_name = "browser_navigate" then
    (svc, runFixed elapsed ts.browser [("operation", .str "navigate")] args)
  else if tool_name = "browser_click" then
    (svc, runFixed elapsed ts.browser [("operation", .str "click")] args)
  else if tool_name = "browser_type" then
    (svc, runFixed elapsed ts.browser [("operation", .str "type")] args)
  else if tool_name = "browser_screenshot" then
    (svc, runFixed elapsed ts.browser [("operation", .str "screenshot")] args)
  else if tool_name = "git_status" then
    (svc, runFixed elapsed ts.git [("operation", .str "status")] args)
  else if tool_name = "git_commit" then
    (svc,
      match args.lookup "repo_path" with
      | none => .exn "KeyError: repo_path"
      | some rp =>
          let add_result := BaseTool.run elapsed ts.git
            [ ("operation", .str "add"), ("repo_path", rp)
            , ("files", dictGet args "files" .null) ]
          if jTruthy (dictGet add_result "success" .null) then
            runFixed elapsed ts.git [("operation", .str "commit")] args
          else .ret add_result)
  else if tool_name = "git_create_branch" then
    (svc, runFixed elapsed ts.git [("operation", .str "create_branch")] args)
  else if tool_name = "git_push" then
    (svc, runFixed elapsed ts.git [("operation", .str "push")] args)
  else if tool_name = "git_create_pr" then
    (svc, .ret
      [ ("success", .bool false)
      , ("message", .str "PR creation requires GitHub API integration") ])
  else if tool_name = "web_search" then
    (svc, runFixed elapsed ts.web [("operation", .str "search")] args)
  else if tool_name = "web_get_contents" then
    (svc, runFixed elapsed ts.web [("operation", .str "get_contents")] args)
  else if tool_name = "todo_write" then
    match parseTodos (dictGet args "todos" (.list [])) with
    | .exn e => (svc, .exn e)
    | .ret todos =>
        (svc.update_todos session_id todos,
          runFixed elapsed ts.task
            [ ("operation", .str "write")
            , ("session_id", .str session_id) ] args)
  else if tool_name = "message_user" then
    (svc, .ret
      [ ("success", .bool true)
      , ("message", dictGet args "message" (.str ""))
      , ("block_on_user", dictGet args "block_on_user" (.bool false)) ])
  else if tool_name = "think" then
    (svc, ts.thinking
      [ ("thought", dictGet args "thought" (.str ""))
      , ("session_id", .str session_id)
      , ("category", dictGet args "category" .null) ])
  else if tool_name = "data_analyst" then
    let po := dictPop args "operation" (.str "analyze")
    (svc, ts.data_analyst (("operation", po.1) :: po.2))
  else if tool_name = "deploy" then
    let po := dictPop args "operation" (.str "status")
    (svc, ts.deploy (("operation", po.1) :: po.2))
  else if tool_name = "lsp_tool" then
    let po := dictPop args "operation" (.str "get_diagnostics")
    (svc, ts.lsp (("operation", po.1) :: po.2))
  else if tool_name = "goto_definition" then
    (svc, callFixed ts.lsp [("operation", .str "goto_definition")] args)
  else if tool_name = "find_references" then
    (svc, callFixed ts.lsp [("operation", .str "find_references")] args)
  else if tool_name = "hover_symbol" then
    (svc, callFixed ts.lsp [("operation", .str "hover_symbol")] args)
  else if tool_name = "get_diagnostics" then
    (svc, callFixed ts.lsp [("operation", .str "get_diagnostics")] args)
  else if tool_name = "mcp_tool" then
    let po := dictPop args "operation" (.str "list_servers")
    (svc, ts.mcp (("operation", po.1) :: po.2))
  else if tool_name = "mcp_list_servers" then
    (svc, callFixed ts.mcp [("operation", .str "list_servers")] args)
  else if tool_name = "mcp_list_tools" then
    (svc, callFixed ts.mcp [("operation", .str "list_tools")] args)
  else if tool_name = "mcp_call_tool" then
    (svc, callFixed ts.mcp [("operation", .str "call_tool")] args)
  else if tool_name = "github_api" then
    let po := dictPop args "operation" (.str "list_repos")
    (svc, ts.github_api (("operation", po.1) :: po.2))
  else if tool_name = "git_view_pr" then
    (svc, callFixed ts.github_api [("operation", .str "view_pr")] args)
  else if tool_name = "git_pr_checks" then
    (svc, callFixed ts.github_api [("operation", .str "pr_checks")] args)
  else if tool_name = "git_comment_on_pr" then
    (svc, callFixed ts.github_api [("operation", .str "comment_on_pr")] args)
  else if tool_name = "git_ci_job_logs" then
    (svc, callFixed ts.github_api [("operation", .str "ci_job_logs")] args)
  else if tool_name = "recording_start" then
    (svc, callFixed ts.screen_recording
      [ ("operation", .str "start")
      , ("session_id", .str session_id) ] args)
  else if tool_name = "recording_stop" then
    (svc, callFixed ts.screen_recording [("operation", .str "stop")] args)
  else if tool_name = "screenshot" then
    (svc, callFixed ts.screen_recording [("operation", .str "screenshot")] args)
  else if tool_name = "code_validator" then
    let po := dictPop args "operation" (.str "validate_all")
    (svc, ts.code_validator (("operation", po.1) :: po.2))
  else if tool_name = "validate_code" then
    (svc, callFixed ts.code_validator [("operation", .str "validate_all")] args)
  else if tool_name = "lint_code" then
    (svc, callFixed ts.code_validator [("operation", .str "lint")] args)
  else if tool_name = "type_check" then
    (svc, callFixed ts.code_validator [("operation", .str "type_check")] args)
  else if tool_name = "run_tests" then
    (svc, callFixed ts.code_validator [("operation", .str "test")] args)
  else if tool_name = "build_project" then
    (svc, callFixed ts.code_validator [("operation", .str "build")] args)
  else if tool_name = "detect_project" then
    (svc, callFixed ts.code_validator [("operation", .str "detect_project")] args)
  else if tool_name = "syntax_check" then
    (svc, callFixed ts.code_validator [("operation", .str "syntax_check")] args)
  else
    (svc, .ret [("error", .str ("Unknown tool: " ++ tool_name))])

/-- `AgentService._execute_tool`: the body above under the catch-all
`except Exception as e: return {"error": str(e)}` — the dispatcher is a
total function into a result dict; it never raises. -/
def executeTool (ts : ToolSet) (elapsed : ℚ) (svc : SessionService)
    (session_id : String) (tool_name : String) (args : Args) :
    SessionService × RDict :=
  match executeToolBody ts elapsed svc session_id tool_name args with
  | (svc, .ret d) => (svc, d)
  | (svc, .exn e) => (svc, [("error", .str e)])

/-- C7: for every tool set, timing, session state and argument map, an
unregistered tool name falls through every dispatch branch to the error
dict `{error: "Unknown tool: <name>"}`, with the session untouched; the
dispatcher is a total function into a plain result dict (the catch-all
`except` is part of the embedding), so it never raises. -/
theorem unknown_tool_error (ts : ToolSet) (elapsed : ℚ)
    (svc : SessionService) (sid : String) (args : Args) (tool_name : String)
    (h : tool_name ∉ knownToolNames) :
    executeTool ts elapsed svc sid tool_name args
      = (svc, [("error", .str ("Unknown tool: " ++ tool_name))]) := by
  simp only [knownToolNames, List.mem_cons, List.not_mem_nil, or_false,
    not_or] at h
  simp [executeTool, executeToolBody, h]

/-- A tool set whose every handler returns an empty dict. -/
def ts0 : ToolSet :=
  { bash := fun _ => .ret []
    file_ops := fun _ => .ret []
    search := fun _ => .ret []
    browser := fun _ => .ret []
    git := fun _ => .ret []
    web := fun _ => .ret []
    task := fun _ => .ret []
    data_analyst := fun _ => .ret []
    deploy := fun _ => .ret []
    lsp := fun _ => .ret []
    mcp := fun _ => .ret []
    thinking := fun _ => .ret []
    github_api := fun _ => .ret []
    screen_recording := fun _ => .ret []
    code_validator := fun _ => .ret []
    knowledge := fun _ => .ret [] }

/-- Witness: `invoke("not_a_real_tool", {})` yields exactly
`{error: "Unknown tool: not_a_real_tool"}`. -/
theorem unknown_tool_error_witness :
    executeTool ts0 0 ⟨[]⟩ "s" "not_a_real_tool" []
      = (⟨[]⟩, [("error", .str "Unknown tool: not_a_real_tool")]) :=
  unknown_tool_error ts0 0 ⟨[]⟩ "s" [] "not_a_real_tool" (by decide)

/-- C3 counterexample: the dispatcher's unknown-tool envelope carries no
`execution_time_ms` key at all — the duration is not "always included
regardless of success". -/
theorem unknown_tool_envelope_lacks_duration :
    hasKey (executeTool ts0 5 ⟨[]⟩ "s" "nonexistent_tool" []).2
      "execution_time_ms" = false := by
  rfl

/-- C3 amended: every envelope produced by the `BaseTool.run` timing
wrapper includes `execution_time_ms`, on success and on handler exception
alike; dispatcher paths that bypass the wrapper — the unknown-tool error,
the dispatch-level exception catch, and the tools invoked through bare
`execute` — return envelopes without a duration. -/
theorem run_envelope_has_duration (elapsed_ms : ℚ)
    (execute : Args → PyOutcome RDict) (args : Args) :
    hasKey (BaseTool.run elapsed_ms execute args) "execution_time_ms"
      = true := by
  unfold BaseTool.run
  cases execute args <;> rfl

/-- The completion dict the LLM boundary returns:
`{content?, tool_calls?}` (`response.get("content", "")` and
`response.get("tool_calls")` in the source). -/
structure LLMResponse where
  content : Option String := none
  tool_calls : Option (List ToolCall) := none

/-- The external collaborators `process_message` consults: the LLM
boundary (a function of the history it is handed), the tool
implementations, the per-invocation wall-clock measurement, and the JSON
codec (`json.loads` on argument text — `none` models a
`JSONDecodeError` — and `json.dumps` on result dicts). -/
structure Boundary where
  llm : List HistEntry → LLMResponse
  tools : ToolSet
  elapsed : ℚ
  parseArgs : String → Option Args
  dumps : RDict → String

/-- One entry of the accumulated tool-execution trace:
`{tool, args, result}`. -/
structure TraceEntry where
  tool : String
  args : Args
  result : RDict

/-- What `process_message` returns:
`{message, tool_results, iterations}`. -/
structure PMResult where
  message : String
  tool_results : List TraceEntry
  iterations : Nat

/-- The `for tool_call in tool_calls` body of `process_message`: parse
the arguments (a parse failure yields an empty map), invoke the
dispatcher, accumulate the trace entry, and append the serialized result
as a `tool` message correlated by the call's id. -/
def execRound (b : Boundary) (sid : String) :
    SessionService → List TraceEntry → List ToolCall →
    SessionService × List TraceEntry
  | svc, trace, [] => (svc, trace)
  | svc, trace, tc :: rest =>
      let args := (b.parseArgs tc.arguments).getD []
      let r := executeTool b.tools b.elapsed svc sid tc.name args
      let trace := trace ++ [{ tool := tc.name, args := args, result := r.2 }]
      let svc := r.1.add_message sid .tool (b.dumps r.2) none (some tc.id)
      execRound b sid svc trace rest

/-- The `while iterations < max_iterations` loop of `process_message`,
with `fuel = max_iterations - iterations` driving the recursion. The last
component of the result is a ghost counter of completion requests issued
(not source state; it instruments the bounded-loop property). -/
def processLoop (b : Boundary) (sid : String) :
    Nat → Nat → SessionService → List HistEntry → List TraceEntry → Nat →
    SessionService × PMResult × Nat
  | 0, iterations, svc, _history, trace, calls =>
      (svc,
        { message := "Max iterations reached", tool_results := trace,
          iterations := iterations },
        calls)
  | fuel + 1, iterations, svc, history, trace, calls =>
      let iterations := iterations + 1
      let response := b.llm history
      let calls := calls + 1
      let svc := svc.add_message sid .assistant (response.content.getD "")
        response.tool_calls none
      let tool_calls := response.tool_calls.getD []
      if tool_calls.isEmpty then
        (svc,
          { message := response.content.getD "", tool_results := trace,
            iterations := iterations },
          calls)
      else
        let st := execRound b sid svc trace tool_calls
        processLoop b sid fuel iterations st.1
          (st.1.get_conversation_history sid none) st.2 calls

/-- `AgentService.process_message`: append the user message, read the
history, and run the bounded completion/tool loop. -/
def process_message (b : Boundary) (svc : SessionService)
    (session_id user_message : String) (max_iterations : Nat := 10) :
    SessionService × PMResult × Nat :=
  let svc := svc.add_message session_id .user user_message none none
  let history := svc.get_conversation_history session_id none
  processLoop b session_id max_iterations 0 svc history [] 0

/-- When every completion carries tool calls, the loop consumes all its
fuel: one completion request per pass, and the max-iterations outcome at
the end. -/
theorem processLoop_all_tool_calls (b : Boundary) (sid : String)
    (h : ∀ hist, (b.llm hist).tool_calls.getD [] ≠ []) :
    ∀ (fuel iterations : Nat) (svc : SessionService)
      (history : List HistEntry) (trace : List TraceEntry) (calls : Nat),
      (processLoop b sid fuel iterations svc history trace calls).2.1.message
          = "Max iterations reached" ∧
      (processLoop b sid fuel iterations svc history trace calls).2.1.iterations
          = iterations + fuel ∧
      (processLoop b sid fuel iterations svc history trace calls).2.2
          = calls + fuel := by
  intro fuel
  induction fuel with
  | zero => intro iterations svc history trace calls; exact ⟨rfl, rfl, rfl⟩
  | succ n ih =>
      intro iterations svc history trace calls
      have hempty : ((b.llm history).tool_calls.getD []).isEmpty = false := by
        cases hl : (b.llm history).tool_calls.getD [] with
        | nil => exact absurd hl (h history)
        | cons a l => rfl
      simp only [processLoop, hempty, Bool.false_eq_true, if_false]
      refine ⟨(ih _ _ _ _ _).1, ?_, ?_⟩
      · rw [(ih _ _ _ _ _).2.1]; omega
      · rw [(ih _ _ _ _ _).2.2]; omega

/-- C2: when the LLM boundary always returns a non-empty tool-call list,
`process_message(..., max_iterations := 3)` issues exactly 3 completion
requests (the ghost call counter is 3 — there is no 4th), terminates, and
returns the max-iterations message with iteration count 3; the returned
`tool_results` is the loop's accumulated trace by construction. -/
theorem process_message_bounded (b : Boundary) (svc : SessionService)
    (sid user_message : String)
    (h : ∀ hist, (b.llm hist).tool_calls.getD [] ≠ []) :
    (process_message b svc sid user_message 3).2.1.message
        = "Max iterations reached" ∧
    (process_message b svc sid user_message 3).2.1.iterations = 3 ∧
    (process_message b svc sid user_message 3).2.2 = 3 :=
  processLoop_all_tool_calls b sid h 3 0 _ _ [] 0

/-- A boundary whose LLM always proposes one `message_user` call. -/
def bW : Boundary :=
  { llm := fun _ =>
      { content := some "", tool_calls := some [⟨"c1", "message_user", ""⟩] }
    tools := ts0
    elapsed := 0
    parseArgs := fun _ => none
    dumps := fun _ => "" }

/-- Witness: the always-tool-calling boundary on an empty session store
hits the 3-iteration bound with exactly 3 completion calls. -/
theorem process_message_bounded_witness :
    (∀ hist, (bW.llm hist).tool_calls.getD [] ≠ []) ∧
    ((process_message bW ⟨[]⟩ "s" "hi" 3).2.1.message
        = "Max iterations reached" ∧
      (process_message bW ⟨[]⟩ "s" "hi" 3).2.1.iterations = 3 ∧
      (process_message bW ⟨[]⟩ "s" "hi" 3).2.2 = 3) :=
  ⟨fun _ => by simp [bW],
   process_message_bounded bW ⟨[]⟩ "s" "hi" (fun _ => by simp [bW])⟩
